import Mathlib

/-!
Shallow embedding of the hr-button generation backend.

The TypeScript sources embedded here:
* `src/lib/utils/errors.ts` (ApiError, handleApiError)
* `src/lib/clients/gemini.client.ts` (GeminiClient)
* `src/lib/clients/elevenlabs.client.ts` (ElevenLabsClientWrapper)
* `src/lib/services/combined.service.ts` (CombinedService)
* the combined-generation route handler (POST)
* `src/lib/prompts/templates.ts` (PROMPT_TEMPLATES, getPromptTemplate, PromptBuilder)
* the base64 consumption path of `src/app/page.tsx` (atob + charCodeAt)

JavaScript strings are modelled as Lean `String` / `List Char`; JSON numbers
used as token counts and HTTP statuses as `Nat`; voice-tuning numbers as `Rat`.
Optional object fields become `Option`; absent and `undefined`/`null` are both
`none` where the code only ever probes them with optional chaining or
truthiness. A thrown JavaScript value is modelled by `JsThrownValue`, which
records exactly the structure the embedded code inspects (`instanceof Error`,
`instanceof ApiError`, the `message` property, a `code` property, and the
`JSON.stringify` image, the latter kept as an oracle string). Remote calls are
modelled by passing their outcome (or an outcome function) as an argument.
Thrown exceptions of embedded functions become `Except` errors or `none`.
-/

set_option maxRecDepth 40000

namespace HrButton

/-- JavaScript `a || b` on an optional string: `undefined` and `""` are falsy. -/
def jsOrStr (o : Option String) (d : String) : String :=
  match o with
  | some s => if s = "" then d else s
  | none => d

/-- JavaScript truthiness of an optional boolean field (`undefined` is falsy). -/
def jsTruthyBool (o : Option Bool) : Bool :=
  o.getD false

/-! ### Gemini response body (`data` as probed by gemini.client.ts) -/

/-- The `data.error` object of a Gemini error reply (only `message` is probed). -/
structure GeminiErrorPayload where
  message : Option String := none
  deriving DecidableEq

/-- `data.usageMetadata` with its three optional counters. -/
structure GeminiUsageMetadata where
  promptTokenCount : Option Nat := none
  candidatesTokenCount : Option Nat := none
  totalTokenCount : Option Nat := none
  deriving DecidableEq

/-- A parsed Gemini JSON body, reduced to the fields the client reads:
`candidates?.[0]?.content?.parts?.[0]?.text` (collapsed into one optional
field, `none` when any link of the optional chain is absent),
`usageMetadata`, and `error`. -/
structure GeminiData where
  candidatesText : Option String := none
  usageMetadata : Option GeminiUsageMetadata := none
  errorField : Option GeminiErrorPayload := none
  deriving DecidableEq

/-- The opaque `details` payload carried by a normalized error:
either `data.error`, or the whole parsed body (`data.error || data`). -/
inductive ErrorDetails where
  | geminiErrorField (p : GeminiErrorPayload)
  | geminiBody (d : GeminiData)
  deriving DecidableEq

/-! ### errors.ts -/

/-- The serialized shape produced by `ApiError.toJSON` and used as an HTTP body. -/
structure ApiErrorData where
  code : String
  message : String
  statusCode : Nat
  details : Option ErrorDetails := none
  deriving DecidableEq

/-- An `ApiError` instance: `code`, `statusCode`, `details` own properties, and
the inherited `Error.message` set by `super(data.message)`. -/
structure ApiError where
  code : String
  message : String
  statusCode : Nat
  details : Option ErrorDetails := none
  deriving DecidableEq

/-- `ApiError.toJSON` from errors.ts. -/
def ApiError.toJSON (e : ApiError) : ApiErrorData :=
  { code := e.code
    message := e.message
    statusCode := e.statusCode
    details := e.details }

/-- A thrown JavaScript value, as far as the embedded code inspects it.
`json` is the `JSON.stringify` image of the value, carried as an oracle. -/
inductive JsThrownValue where
  /-- an `ApiError` instance (hence also an `Error` and a non-null object
  with a `code` own property) -/
  | apiError (e : ApiError) (json : String)
  /-- an `Error` instance that is not an `ApiError`; `hasCode` records
  whether `"code" in value` holds -/
  | jsError (message : String) (hasCode : Bool) (json : String)
  /-- a non-null object that is not an `Error` -/
  | object (hasCode : Bool) (json : String)
  /-- any other thrown value (string, number, null, undefined, ...) -/
  | primitive
  deriving DecidableEq

/-- `value instanceof Error`. -/
def JsThrownValue.instanceofError : JsThrownValue → Bool
  | .apiError _ _ => true
  | .jsError _ _ _ => true
  | _ => false

/-- The `message` property read after an `instanceof Error` check. -/
def JsThrownValue.errorMessage : JsThrownValue → String
  | .apiError e _ => e.message
  | .jsError m _ _ => m
  | _ => ""

/-- `value instanceof ApiError`. -/
def JsThrownValue.instanceofApiError : JsThrownValue → Bool
  | .apiError _ _ => true
  | _ => false

/-- `value && typeof value === "object" && "code" in value`. -/
def JsThrownValue.hasCodeProp : JsThrownValue → Bool
  | .apiError _ _ => true
  | .jsError _ hasCode _ => hasCode
  | .object hasCode _ => hasCode
  | .primitive => false

/-- `JSON.stringify(value)` (oracle; never consulted for primitives here). -/
def JsThrownValue.stringify : JsThrownValue → String
  | .apiError _ json => json
  | .jsError _ _ json => json
  | .object _ json => json
  | .primitive => ""

/-- `handleApiError` from errors.ts: maps any caught value to an HTTP-style
`(status, body)` pair. -/
def handleApiError (error : JsThrownValue) : Nat × ApiErrorData :=
  match error with
  | .apiError e _ => (e.statusCode, e.toJSON)
  | .jsError m _ _ => (500, { code := "INTERNAL_ERROR", message := m, statusCode := 500 })
  | _ => (500, { code := "INTERNAL_ERROR", message := "Unknown error", statusCode := 500 })

/-! ### Text generation (gemini.client.ts) -/

/-- `TextGenerationRequest` from api.types.ts. -/
structure TextGenerationRequest where
  prompt : String
  model : Option String := none
  temperature : Option Rat := none
  maxTokens : Option Nat := none
  deriving DecidableEq

/-- The `usage` record of a `TextGenerationResponse`. -/
structure TextUsage where
  promptTokens : Nat
  completionTokens : Nat
  totalTokens : Nat
  deriving DecidableEq

/-- `TextGenerationResponse` from api.types.ts; `metadata` is the raw body echo. -/
structure TextGenerationResponse where
  text : String
  model : String
  usage : Option TextUsage := none
  metadata : Option GeminiData := none
  deriving DecidableEq

/-- `DEFAULT_GEMINI_MODEL` from models.config.ts. -/
def DEFAULT_GEMINI_MODEL : String := "gemini-2.0-flash-exp"

/-- `GeminiClient.createError`. -/
def GeminiClient.createError (statusCode : Nat) (data : GeminiData) : ApiError :=
  { code :=
      if statusCode = 401 ∨ statusCode = 403 then "GEMINI_AUTH_ERROR"
      else if statusCode = 429 then "GEMINI_RATE_LIMIT"
      else "GEMINI_API_ERROR"
    message :=
      match data.errorField with
      | some p => jsOrStr p.message ("Gemini API error: " ++ toString statusCode)
      | none => "Gemini API error: " ++ toString statusCode
    statusCode := statusCode
    details :=
      some (match data.errorField with
            | some p => ErrorDetails.geminiErrorField p
            | none => ErrorDetails.geminiBody data) }

/-- `GeminiClient.parseResponse`: `if (!text) throw ...` is a falsiness check,
so an absent and an empty text field take the same failure branch. -/
def GeminiClient.parseResponse (data : GeminiData) (model : String) :
    Except ApiError TextGenerationResponse :=
  let failure : ApiError :=
    { code := "GEMINI_NO_RESPONSE"
      message := "No text generated in response"
      statusCode := 500 }
  match data.candidatesText with
  | none => .error failure
  | some t =>
    if t = "" then .error failure
    else
      .ok { text := t
            model := model
            usage := data.usageMetadata.map (fun u =>
              { promptTokens := u.promptTokenCount.getD 0
                completionTokens := u.candidatesTokenCount.getD 0
                totalTokens := u.totalTokenCount.getD 0 })
            metadata := some data }

/-- The outcome of the `fetch` + `response.json()` pair inside
`GeminiClient.generateText`: either a reply with an HTTP status and a parsed
body, or a thrown exception (network or parse failure). -/
inductive FetchOutcome where
  | reply (status : Nat) (data : GeminiData)
  | thrown (e : JsThrownValue)
  deriving DecidableEq

/-- `GeminiClient.generateText`. The try-block result is computed first; its
own `catch` then rethrows `ApiError` values unchanged and wraps anything else
into `GEMINI_REQUEST_FAILED`. `response.ok` is `200 ≤ status ≤ 299`. -/
def GeminiClient.generateText (request : TextGenerationRequest)
    (outcome : FetchOutcome) : Except ApiError TextGenerationResponse :=
  let _model := jsOrStr request.model DEFAULT_GEMINI_MODEL
  let inner : Except (ApiError ⊕ JsThrownValue) TextGenerationResponse :=
    match outcome with
    | .thrown e => .error (.inr e)
    | .reply status data =>
      if ¬ (200 ≤ status ∧ status ≤ 299) then
        .error (.inl (GeminiClient.createError status data))
      else
        match GeminiClient.parseResponse data _model with
        | .error e => .error (.inl e)
        | .ok r => .ok r
  match inner with
  | .ok r => .ok r
  | .error (.inl e) => .error e
  | .error (.inr v) =>
    match v with
    | .apiError e _ => .error e
    | .jsError m _ _ =>
      .error { code := "GEMINI_REQUEST_FAILED", message := m, statusCode := 500 }
    | _ =>
      .error { code := "GEMINI_REQUEST_FAILED", message := "Unknown error", statusCode := 500 }

/-! ### Audio generation (elevenlabs.client.ts) and base64 (Node `Buffer`, browser `atob`) -/

/-- `VoiceSettings` from models.config.ts (numbers as rationals). -/
structure VoiceSettings where
  stability : Rat
  similarity_boost : Rat
  style : Option Rat := none
  use_speaker_boost : Option Bool := none
  deriving DecidableEq

/-- `DEFAULT_VOICE_SETTINGS` from models.config.ts. -/
def DEFAULT_VOICE_SETTINGS : VoiceSettings :=
  { stability := (1 : Rat) / 2
    similarity_boost := (4 : Rat) / 5
    use_speaker_boost := some true }

/-- `DEFAULT_VOICE` from models.config.ts (`ELEVEN_LABS_VOICES.RACHEL`). -/
def DEFAULT_VOICE : String := "JBFqnCBsd6RMkjVDRZzb"

/-- `AudioGenerationRequest` from api.types.ts. -/
structure AudioGenerationRequest where
  text : String
  voiceId : Option String := none
  modelId : Option String := none
  outputFormat : Option String := none
  voiceSettings : Option VoiceSettings := none
  deriving DecidableEq

/-- `AudioGenerationResponse` from api.types.ts (`audioData` is base64). -/
structure AudioGenerationResponse where
  audioData : String
  format : String
  voiceId : String
  size : Nat
  deriving DecidableEq

/-- The standard base64 alphabet used by Node `Buffer.toString("base64")`
and the browser `atob`. -/
def b64Alphabet : List Char :=
  "ABCDEFGHIJKLMNOPQRSTUVWXYZabcdefghijklmnopqrstuvwxyz0123456789+/".data

/-- Character for a 6-bit group (only applied to values below 64). -/
def encChar (n : Nat) : Char :=
  b64Alphabet.getD n '='

/-- 6-bit value of a base64 character. -/
def decChar (c : Char) : Nat :=
  b64Alphabet.findIdx (fun d => d = c)

/-- Base64 encoding of a byte sequence, with `=` padding, as produced by
`Buffer.toString("base64")`. Bytes are naturals below 256. -/
def base64Encode : List Nat → List Char
  | [] => []
  | [a] => [encChar (a / 4), encChar (a % 4 * 16), '=', '=']
  | [a, b] => [encChar (a / 4), encChar (a % 4 * 16 + b / 16), encChar (b % 16 * 4), '=']
  | a :: b :: c :: rest =>
    encChar (a / 4) :: encChar (a % 4 * 16 + b / 16) ::
      encChar (b % 16 * 4 + c / 64) :: encChar (c % 64) :: base64Encode rest

/-- Base64 decoding of a (canonically padded) base64 text to the byte
sequence, as performed by `atob` followed by per-index `charCodeAt` in the
page component. -/
def base64Decode : List Char → List Nat
  | a :: b :: c :: d :: rest =>
    if c = '=' then [decChar a * 4 + decChar b / 16]
    else if d = '=' then
      [decChar a * 4 + decChar b / 16, decChar b % 16 * 16 + decChar c / 4]
    else
      (decChar a * 4 + decChar b / 16) ::
        (decChar b % 16 * 16 + decChar c / 4) ::
        (decChar c % 4 * 64 + decChar d) :: base64Decode rest
  | _ => []

/-- The audio consumption path of page.tsx: `atob(audioData)` to a binary
string, then `charCodeAt` each index into a byte array. -/
def decodeAudioData (audioData : String) : List Nat :=
  base64Decode audioData.data

/-- Default output format constant of `ElevenLabsClientWrapper`. -/
def elevenDefaultOutputFormat : String := "mp3_44100_128"

/-- Default model id constant of `ElevenLabsClientWrapper` (the live line of
the two near-duplicate defaults; the commented-out alternative is
`eleven_multilingual_v2`). -/
def elevenDefaultModelId : String := "eleven_v3"

/-- The success path of `ElevenLabsClientWrapper.generateAudio`. The vendor
SDK stream is the oracle `chunks`; the client concatenates the chunks into
one buffer, base64-encodes it, and reports the length of the decoded buffer
as `size`. -/
def ElevenLabsClientWrapper.generateAudio (request : AudioGenerationRequest)
    (chunks : List (List Nat)) : AudioGenerationResponse :=
  let voiceId := jsOrStr request.voiceId DEFAULT_VOICE
  let audioBuffer := chunks.flatten
  let audioBase64 := base64Encode audioBuffer
  { audioData := String.mk audioBase64
    format := jsOrStr request.outputFormat elevenDefaultOutputFormat
    voiceId := voiceId
    size := audioBuffer.length }

/-! ### Combined service (combined.service.ts) -/

/-- `Partial<AudioGenerationRequest>`: every field optional. -/
structure AudioSettingsOverride where
  text : Option String := none
  voiceId : Option String := none
  modelId : Option String := none
  outputFormat : Option String := none
  voiceSettings : Option VoiceSettings := none
  deriving DecidableEq

/-- `CombinedRequest` from api.types.ts. -/
structure CombinedRequest where
  prompt : String
  model : Option String := none
  generateAudio : Option Bool := none
  voiceId : Option String := none
  audioSettings : Option AudioSettingsOverride := none
  deriving DecidableEq

/-- `CombinedResponse` from api.types.ts. -/
structure CombinedResponse where
  text : TextGenerationResponse
  audio : Option AudioGenerationResponse := none
  audioError : Option String := none
  audioErrorDetails : Option String := none
  deriving DecidableEq

/-- The audio request object built in the audio stage:
`{ text: textResponse.text, voiceId: request.voiceId, ...request.audioSettings }`.
The spread comes last, so own fields of `audioSettings` override the first two. -/
def mkCombinedAudioRequest (textResponse : TextGenerationResponse)
    (request : CombinedRequest) : AudioGenerationRequest :=
  let s := request.audioSettings.getD {}
  { text := s.text.getD textResponse.text
    voiceId := match s.voiceId with | some v => some v | none => request.voiceId
    modelId := s.modelId
    outputFormat := s.outputFormat
    voiceSettings := s.voiceSettings }

/-- The human-readable message captured when the audio stage throws:
`error instanceof Error ? error.message : "Audio generation failed"`. -/
def audioFailureMessage (e : JsThrownValue) : String :=
  if e.instanceofError then e.errorMessage else "Audio generation failed"

/-- `CombinedService.generateTextWithAudio`. The two services are oracles
mapping the request actually sent to the outcome of the remote call; the
service layer itself is a pass-through to the clients. -/
def CombinedService.generateTextWithAudio
    (textService : TextGenerationRequest → Except JsThrownValue TextGenerationResponse)
    (audioService : AudioGenerationRequest → Except JsThrownValue AudioGenerationResponse)
    (request : CombinedRequest) : Except JsThrownValue CombinedResponse :=
  match textService { prompt := request.prompt, model := request.model } with
  | .error e => .error e
  | .ok textResponse =>
    let result : CombinedResponse := { text := textResponse }
    if jsTruthyBool request.generateAudio then
      match audioService (mkCombinedAudioRequest textResponse request) with
      | .ok audioResponse => .ok { result with audio := some audioResponse }
      | .error error =>
        let withMessage := { result with audioError := some (audioFailureMessage error) }
        if error.hasCodeProp then
          .ok { withMessage with audioErrorDetails := some error.stringify }
        else
          .ok withMessage
    else
      .ok result

/-! ### Combined route handler (POST) -/

/-- The parsed JSON body of an inbound combined-generation request; `prompt`
may be absent at runtime even though the TypeScript cast says otherwise. -/
structure CombinedRouteBody where
  prompt : Option String := none
  model : Option String := none
  generateAudio : Option Bool := none
  voiceId : Option String := none
  audioSettings : Option AudioSettingsOverride := none
  deriving DecidableEq

/-- A JSON response body of the combined route. -/
inductive RouteResponseBody where
  | errorBody (e : ApiErrorData)
  | combined (r : CombinedResponse)
  deriving DecidableEq

/-- The combined route `POST` handler: `if (!body.prompt)` respond 400 with a
`PROMPT_REQUIRED` body; otherwise run the combined service and answer 200 with
its result, or map a thrown value through `handleApiError`. The service is the
oracle `service`, consulted only after the prompt check. -/
def combinedRoutePOST
    (service : CombinedRequest → Except JsThrownValue CombinedResponse)
    (body : CombinedRouteBody) : Nat × RouteResponseBody :=
  let promptRequired : Nat × RouteResponseBody :=
    (400, .errorBody { code := "PROMPT_REQUIRED", message := "Prompt is required", statusCode := 400 })
  match body.prompt with
  | none => promptRequired
  | some p =>
    if p = "" then promptRequired
    else
      match service { prompt := p, model := body.model, generateAudio := body.generateAudio,
                      voiceId := body.voiceId, audioSettings := body.audioSettings } with
      | .ok r => (200, .combined r)
      | .error e =>
        let handled := handleApiError e
        (handled.1, .errorBody handled.2)

/-! ### Prompt templates and builder (templates.ts)

The repository carries two near-duplicate versions of the template registry;
the larger one (the one including `HR_ADVICE`) is embedded. -/

/-- `PromptTemplate` from templates.ts. -/
structure PromptTemplate where
  id : String
  name : String
  template : String
  /-- the `variables` field of the source interface -/
  varNames : Option (List String) := none
  description : Option String := none
  deriving DecidableEq

/-- The `GREETING` entry of `PROMPT_TEMPLATES`. -/
def GREETING : PromptTemplate :=
  { id := "greeting"
    name := "Greeting"
    template := "Say hello and tell me a fun fact about {topic} in one sentence."
    varNames := some ["topic"]
    description := some "Generates a friendly greeting with a fact" }

/-- The `EXPLAIN` entry of `PROMPT_TEMPLATES`. -/
def EXPLAIN : PromptTemplate :=
  { id := "explain"
    name := "Explanation"
    template := "Explain {concept} in simple terms suitable for {audience}."
    varNames := some ["concept", "audience"] }

/-- The `HR_ADVICE` entry of `PROMPT_TEMPLATES`. Its template string is a
multi-line literal whose backslash-newline continuations keep the six leading
spaces of every continued line. -/
def HR_ADVICE : PromptTemplate :=
  { id := "hr-advice"
    name := "HR Advice"
    template := "You\x27re a senior HR manager who works for a small company. \n      Someone has done something wrong during a casual office conversation. \n      Give diminutive advice as though you\x27re talking to them in person. \n      Make liberal use of sarcasm and witty remarks. \n      IMPORTANT: Be very concise and to the point." }

/-- The own keys of the `PROMPT_TEMPLATES` object literal, in source order. -/
def promptTemplateKeys : List String := ["GREETING", "EXPLAIN", "HR_ADVICE"]

/-- Lookup among the own properties of `PROMPT_TEMPLATES`. -/
def ownTemplate (id : String) : Option PromptTemplate :=
  if id = "GREETING" then some GREETING
  else if id = "EXPLAIN" then some EXPLAIN
  else if id = "HR_ADVICE" then some HR_ADVICE
  else none

/-- Member names every plain object literal inherits from `Object.prototype`.
Reading any of them yields a function (or, for `__proto__`, an object), and
all of those values are truthy. -/
def objectPrototypeMembers : List String :=
  ["constructor", "hasOwnProperty", "isPrototypeOf", "propertyIsEnumerable",
   "toLocaleString", "toString", "valueOf",
   "__defineGetter__", "__defineSetter__", "__lookupGetter__", "__lookupSetter__",
   "__proto__"]

/-- The value of reading a property of `PROMPT_TEMPLATES`. -/
inductive TemplatePropValue where
  /-- an own entry: an actual `PromptTemplate` object -/
  | own (t : PromptTemplate)
  /-- a member inherited from `Object.prototype` (truthy, but not a template) -/
  | inherited
  deriving DecidableEq

/-- `getPromptTemplate` from templates.ts: `PROMPT_TEMPLATES[id]`. This is
JavaScript property access on an object literal, so it consults the prototype
chain: ids naming an `Object.prototype` member yield that inherited (truthy)
value rather than `undefined`. -/
def getPromptTemplate (id : String) : Option TemplatePropValue :=
  match ownTemplate id with
  | some t => some (.own t)
  | none => if id ∈ objectPrototypeMembers then some .inherited else none

/-- The `template` field of a `PromptBuilder` instance. -/
inductive BuilderTemplate where
  | tmpl (t : PromptTemplate)
  /-- the constructor stored an inherited `Object.prototype` member,
  whose `.template` property is `undefined` -/
  | inherited
  deriving DecidableEq

/-- A `PromptBuilder` instance: the stored template and the variables `Map`
as its insertion-ordered entry list. -/
structure PromptBuilderState where
  template : BuilderTemplate
  /-- the `variables` map of the source class, as its insertion-ordered entries -/
  varsList : List (String × String) := []
  deriving DecidableEq

/-- The `PromptBuilder` constructor: looks the id up and throws (`none`)
exactly when the lookup is falsy (`undefined`). -/
def newPromptBuilder (templateId : String) : Option PromptBuilderState :=
  match getPromptTemplate templateId with
  | none => none
  | some (.own t) => some { template := .tmpl t }
  | some .inherited => some { template := .inherited }

/-- `PromptBuilder.fromString`: a builder around a raw template string,
bypassing the registry. -/
def PromptBuilder.fromString (text : String) : PromptBuilderState :=
  { template := .tmpl { id := "custom", name := "Custom", template := text } }

/-- JavaScript `Map.set` on the entry list: an existing key keeps its
position and gets the new value; a new key is appended. -/
def mapSet : List (String × String) → String → String → List (String × String)
  | [], key, value => [(key, value)]
  | (k, v) :: rest, key, value =>
    if k = key then (key, value) :: rest else (k, v) :: mapSet rest key value

/-- `PromptBuilder.setVariable`. -/
def setVariable (b : PromptBuilderState) (name value : String) : PromptBuilderState :=
  { b with varsList := mapSet b.varsList name value }

/-- `PromptBuilder.setVariables`: `Object.entries(vars).forEach(set)`. -/
def setVariables (b : PromptBuilderState) (vars : List (String × String)) : PromptBuilderState :=
  vars.foldl (fun acc kv => setVariable acc kv.1 kv.2) b

/-- JavaScript `\w` (with no unicode flag): ASCII letters, digits, underscore. -/
def isWordChar (c : Char) : Bool :=
  ('a' ≤ c && c ≤ 'z') || ('A' ≤ c && c ≤ 'Z') || ('0' ≤ c && c ≤ '9') || c = '_'

/-- Whether a character list starts with one-or-more word characters followed
by a closing brace: the continuation of a `/{(\w+)}/` match after the `{`. -/
def afterBrace : List Char → Bool
  | c :: d :: rest => isWordChar c && (d = '}' || afterBrace (d :: rest))
  | _ => false

/-- Whether `/{(\w+)}/g` finds at least one match, which is what
`prompt.match(...)` being non-null checks in `build()`. -/
def hasPlaceholder : List Char → Bool
  | [] => false
  | c :: rest => (c = '{' && afterBrace rest) || hasPlaceholder rest

/-- Dollar-pattern expansion of a `String.prototype.replace` replacement
string (string pattern, so no capture groups): `$$` is a literal dollar,
`$&` the matched text, a dollar-backquote the text before the match, a
dollar-quote the text after it; any other dollar sequence is literal. -/
def expandReplacement (pat before after : List Char) : List Char → List Char
  | [] => []
  | [c] => if c = '$' then ['$'] else [c]
  | c :: d :: rest2 =>
    if c = '$' then
      if d = '$' then '$' :: expandReplacement pat before after rest2
      else if d = '&' then pat ++ expandReplacement pat before after rest2
      else if d = Char.ofNat 96 then before ++ expandReplacement pat before after rest2
      else if d = Char.ofNat 39 then after ++ expandReplacement pat before after rest2
      else '$' :: expandReplacement pat before after (d :: rest2)
    else c :: expandReplacement pat before after (d :: rest2)

/-- Worker for `jsReplace`: `seen` is the already-scanned prefix, reversed. -/
def jsReplaceGo (pat rep : List Char) : List Char → List Char → List Char
  | seen, [] =>
    if pat.isPrefixOf [] then expandReplacement pat seen.reverse [] rep else []
  | seen, c :: rest =>
    if pat.isPrefixOf (c :: rest) then
      expandReplacement pat seen.reverse ((c :: rest).drop pat.length) rep ++
        (c :: rest).drop pat.length
    else
      c :: jsReplaceGo pat rep (c :: seen) rest

/-- JavaScript `s.replace(pat, rep)` with a string pattern: replaces only the
first occurrence (with dollar-expansion of the replacement), or returns the
string unchanged when the pattern does not occur. -/
def jsReplace (s pat rep : List Char) : List Char :=
  jsReplaceGo pat rep [] s

/-- The `{name}` search token built for a variable `name`. -/
def placeholderTok (key : List Char) : List Char :=
  '{' :: (key ++ ['}'])

/-- The substitution pass of `build()`: one `replace` per `Map` entry, in
insertion order. -/
def substituteVars (vars : List (String × String)) (t : List Char) : List Char :=
  vars.foldl (fun p kv => jsReplace p (placeholderTok kv.1.data) kv.2.data) t

/-- `PromptBuilder.build()`. Thrown errors are `none`: the explicit
missing-variables throw, and the `TypeError` hit when the constructor stored
an inherited non-template (its `.template` is `undefined`). -/
def build (b : PromptBuilderState) : Option (List Char) :=
  match b.template with
  | .inherited => none
  | .tmpl t =>
    let prompt := substituteVars b.varsList t.template.data
    if hasPlaceholder prompt then none else some prompt

/-- Fuel-driven worker for `specReplaceAll`; fuel at least the subject length
makes it exact. -/
def specReplaceAllGo (pat rep : List Char) : Nat → List Char → List Char
  | 0, s => s
  | fuel + 1, s =>
    if pat ≠ [] ∧ pat.isPrefixOf s then
      rep ++ specReplaceAllGo pat rep fuel (s.drop pat.length)
    else
      match s with
      | [] => []
      | c :: rest => c :: specReplaceAllGo pat rep fuel rest

/-- Replace-all, following the spec sentence for `build()` ("substitutes
every occurrence of each set variable"), for comparison with the
first-occurrence `jsReplace` the code performs. Plain textual replacement. -/
def specReplaceAll (pat rep s : List Char) : List Char :=
  specReplaceAllGo pat rep s.length s

/-- `build()` as the spec describes it: substitute every occurrence of each
set variable, then fail if a `{name}`-shaped token remains. -/
def specBuild (b : PromptBuilderState) : Option (List Char) :=
  match b.template with
  | .inherited => none
  | .tmpl t =>
    let prompt := b.varsList.foldl
      (fun p kv => specReplaceAll (placeholderTok kv.1.data) kv.2.data p) t.template.data
    if hasPlaceholder prompt then none else some prompt

/-! ### Concrete sample values used by closed witness statements -/

/-- The GREETING template text before its `{topic}` placeholder. -/
def greetingPrefix : List Char := "Say hello and tell me a fun fact about ".data

/-- The GREETING template text after its `{topic}` placeholder. -/
def greetingSuffix : List Char := " in one sentence.".data

/-- The EXPLAIN template text before its `{concept}` placeholder. -/
def explainPrefix : List Char := "Explain ".data

/-- The EXPLAIN template text between its two placeholders. -/
def explainMid : List Char := " in simple terms suitable for ".data

/-- The EXPLAIN template text after its `{audience}` placeholder. -/
def explainSuffix : List Char := ".".data

/-- A sample successful text response. -/
def sampleTextResponse : TextGenerationResponse :=
  { text := "hello there", model := "gemini-2.0-flash-exp" }

/-- A sample successful audio response. -/
def sampleAudioResponse : AudioGenerationResponse :=
  { audioData := "TWFu", format := "mp3_44100_128", voiceId := "JBFqnCBsd6RMkjVDRZzb", size := 3 }

/-- A text-service oracle that always succeeds with `sampleTextResponse`. -/
def stubTextServiceOk : TextGenerationRequest → Except JsThrownValue TextGenerationResponse :=
  fun _ => .ok sampleTextResponse

/-- An audio-service oracle that always succeeds with `sampleAudioResponse`. -/
def stubAudioServiceOk : AudioGenerationRequest → Except JsThrownValue AudioGenerationResponse :=
  fun _ => .ok sampleAudioResponse

/-- An audio-service oracle that always throws a plain `Error` with a
non-empty message and no `code` property. -/
def stubAudioServiceFail : AudioGenerationRequest → Except JsThrownValue AudioGenerationResponse :=
  fun _ => .error (.jsError "boom" false "")

/-- An audio-service oracle that always throws an `Error` whose `message`
is the empty string. -/
def stubAudioServiceEmptyMessage :
    AudioGenerationRequest → Except JsThrownValue AudioGenerationResponse :=
  fun _ => .error (.jsError "" false "")

/-- A sample combined request asking for audio. -/
def sampleCombinedRequestAudio : CombinedRequest :=
  { prompt := "p", generateAudio := some true }

/-- A sample combined request not asking for audio. -/
def sampleCombinedRequestNoAudio : CombinedRequest :=
  { prompt := "p" }

/-- A combined-service oracle that always succeeds. -/
def stubCombinedServiceOk : CombinedRequest → Except JsThrownValue CombinedResponse :=
  fun _ => .ok { text := sampleTextResponse }

/-- A combined-service oracle that always throws. -/
def stubCombinedServiceThrow : CombinedRequest → Except JsThrownValue CombinedResponse :=
  fun _ => .error .primitive

/-- A sample Gemini 2xx body whose extracted text is the empty string. -/
def sampleEmptyTextData : GeminiData := { candidatesText := some "" }

/-- A sample text request. -/
def sampleTextRequest : TextGenerationRequest := { prompt := "p" }

/-- A sample Gemini error body carrying an upstream error payload. -/
def sampleAuthErrData : GeminiData := { errorField := some { message := some "bad key" } }

/-- A sample audio request. -/
def sampleAudioRequest : AudioGenerationRequest := { text := "hi" }

/-- A sample chunked audio stream. -/
def sampleAudioChunks : List (List Nat) := [[72, 105], [33]]

/-! ## Supporting lemmas -/

/-- Decoding inverts encoding on each 6-bit group. -/
theorem decChar_encChar : ∀ n : Nat, n < 64 → decChar (encChar n) = n := by decide

/-- No 6-bit group encodes to the padding character. -/
theorem encChar_ne_pad : ∀ n : Nat, n < 64 → encChar n ≠ '=' := by decide

/-- Base64 decoding inverts base64 encoding on byte sequences. -/
theorem base64_roundtrip : ∀ (l : List Nat), (∀ b ∈ l, b < 256) →
    base64Decode (base64Encode l) = l
  | [], _ => rfl
  | [a], h => by
    have ha : a < 256 := h a (by simp)
    have h1 : a / 4 < 64 := by omega
    have h2 : a % 4 * 16 < 64 := by omega
    simp only [base64Encode, base64Decode, if_true]
    rw [decChar_encChar _ h1, decChar_encChar _ h2]
    simp only [List.cons.injEq, and_true]
    omega
  | [a, b], h => by
    have ha : a < 256 := h a (by simp)
    have hb : b < 256 := h b (by simp)
    have h1 : a / 4 < 64 := by omega
    have h2 : a % 4 * 16 + b / 16 < 64 := by omega
    have h3 : b % 16 * 4 < 64 := by omega
    simp only [base64Encode, base64Decode, if_true]
    rw [if_neg (encChar_ne_pad _ h3),
      decChar_encChar _ h1, decChar_encChar _ h2, decChar_encChar _ h3]
    simp only [List.cons.injEq, and_true]
    exact ⟨by omega, by omega⟩
  | a :: b :: c :: rest, h => by
    have ha : a < 256 := h a (by simp)
    have hb : b < 256 := h b (by simp)
    have hc : c < 256 := h c (by simp)
    have h1 : a / 4 < 64 := by omega
    have h2 : a % 4 * 16 + b / 16 < 64 := by omega
    have h3 : b % 16 * 4 + c / 64 < 64 := by omega
    have h4 : c % 64 < 64 := by omega
    simp only [base64Encode, base64Decode]
    rw [if_neg (encChar_ne_pad _ h3), if_neg (encChar_ne_pad _ h4),
      decChar_encChar _ h1, decChar_encChar _ h2, decChar_encChar _ h3, decChar_encChar _ h4,
      base64_roundtrip rest (fun x hx => h x (by simp [hx]))]
    simp only [List.cons.injEq, and_true]
    exact ⟨by omega, by omega, by omega⟩

/-- A string without an opening brace has no placeholder-shaped token. -/
theorem hasPlaceholder_eq_false_of_no_open (l : List Char) (h : ∀ c ∈ l, c ≠ '{') :
    hasPlaceholder l = false := by
  induction l with
  | nil => rfl
  | cons c rest ih =>
    have hc : c ≠ '{' := h c (List.mem_cons_self c rest)
    have ih2 := ih (fun d hd => h d (List.mem_cons_of_mem c hd))
    simp [hasPlaceholder, hc, ih2]

/-- A nonempty run of word characters followed by a closing brace continues a
placeholder match. -/
theorem afterBrace_append_close (k y : List Char) (hk : k ≠ [])
    (hw : ∀ c ∈ k, isWordChar c = true) : afterBrace (k ++ '}' :: y) = true := by
  induction k with
  | nil => exact absurd rfl hk
  | cons c k2 ih =>
    cases k2 with
    | nil =>
      simp [afterBrace, hw c (List.mem_cons_self c [])]
    | cons d k3 =>
      have ih2 := ih (by simp) (fun e he => hw e (List.mem_cons_of_mem c he))
      simp only [List.cons_append] at ih2 ⊢
      simp [afterBrace, hw c (List.mem_cons_self c (d :: k3)), ih2]

/-- A placeholder anywhere in the right part survives prepending. -/
theorem hasPlaceholder_append_of_right (x y : List Char) (h : hasPlaceholder y = true) :
    hasPlaceholder (x ++ y) = true := by
  induction x with
  | nil => simpa
  | cons c x2 ih => simp [hasPlaceholder, ih]

/-- A `{name}` token at the front is found by the residual-placeholder scan. -/
theorem hasPlaceholder_tok_append (k y : List Char) (hk : k ≠ [])
    (hw : ∀ c ∈ k, isWordChar c = true) :
    hasPlaceholder (placeholderTok k ++ y) = true := by
  have h := afterBrace_append_close k y hk hw
  simp [placeholderTok, hasPlaceholder, h]

/-- A dollar-free replacement string expands to itself. -/
theorem expandReplacement_eq_self (pat before after : List Char) :
    ∀ rep : List Char, '$' ∉ rep → expandReplacement pat before after rep = rep
  | [], _ => rfl
  | [c], h => by
    have hc : c ≠ '$' := fun e => h (e ▸ List.mem_cons_self c [])
    simp [expandReplacement, hc]
  | c :: d :: rest2, h => by
    have hc : c ≠ '$' := fun e => h (e ▸ List.mem_cons_self c (d :: rest2))
    have ih := expandReplacement_eq_self pat before after (d :: rest2)
      (fun m => h (List.mem_cons_of_mem c m))
    simp [expandReplacement, hc, ih]

/-- Every list is a prefix of itself extended by a suffix. -/
theorem isPrefixOf_append_self (l t : List Char) : l.isPrefixOf (l ++ t) = true := by
  induction l with
  | nil => simp [List.isPrefixOf]
  | cons c l2 ih => simp [List.isPrefixOf, ih]

/-- The scan of `jsReplaceGo` passes over a region that cannot start a match
of a pattern opening with a brace. -/
theorem jsReplaceGo_append_no_open (p rep a b seen : List Char)
    (ha : ∀ c ∈ a, c ≠ '{') :
    jsReplaceGo ('{' :: p) rep seen (a ++ b) =
      a ++ jsReplaceGo ('{' :: p) rep (a.reverse ++ seen) b := by
  induction a generalizing seen with
  | nil => simp
  | cons c a2 ih =>
    have hc : c ≠ '{' := ha c (List.mem_cons_self c a2)
    have hpre : (('{' :: p).isPrefixOf (c :: (a2 ++ b))) = false := by
      simp [List.isPrefixOf]
      intro e
      exact absurd e.symm hc
    simp only [List.cons_append, jsReplaceGo, List.append_eq, hpre, Bool.false_eq_true,
      if_false]
    rw [ih (c :: seen) (fun d hd => ha d (List.mem_cons_of_mem c hd))]
    simp

/-- `jsReplaceGo` fires at an immediate occurrence of the pattern. -/
theorem jsReplaceGo_self_append (q rep rest seen : List Char) :
    jsReplaceGo ('{' :: q) rep seen (('{' :: q) ++ rest) =
      expandReplacement ('{' :: q) seen.reverse rest rep ++ rest := by
  have hpre := isPrefixOf_append_self ('{' :: q) rest
  have hdrop : (('{' :: q) ++ rest).drop ('{' :: q).length = rest := List.drop_left _ _
  simp only [List.cons_append] at hpre hdrop ⊢
  simp only [jsReplaceGo, hpre, if_true, hdrop]

/-- One `String.prototype.replace` with a `{name}` pattern, on a subject whose
part before the occurrence cannot start a match, substitutes exactly that
first occurrence (for a dollar-free replacement). -/
theorem jsReplace_boundary (k v a b : List Char)
    (ha : ∀ c ∈ a, c ≠ '{') (hv : '$' ∉ v) :
    jsReplace (a ++ (placeholderTok k ++ b)) (placeholderTok k) v = a ++ (v ++ b) := by
  unfold jsReplace placeholderTok
  rw [jsReplaceGo_append_no_open (k ++ ['}']) v a (('{' :: (k ++ ['}'])) ++ b) [] ha]
  rw [jsReplaceGo_self_append (k ++ ['}']) v b (a.reverse ++ [])]
  rw [expandReplacement_eq_self _ _ _ _ hv]

/-- Membership in an append with no opening brace on either side. -/
theorem no_open_append {x y : List Char} (hx : ∀ c ∈ x, c ≠ '{') (hy : ∀ c ∈ y, c ≠ '{') :
    ∀ c ∈ x ++ y, c ≠ '{' := by
  intro c hc
  rcases List.mem_append.mp hc with h | h
  · exact hx c h
  · exact hy c h

/-! ## Claim theorems -/

/-- **C6** (confirmed): `handleApiError` uses an `ApiError`'s own status and
its `toJSON` serialization verbatim (code, message, statusCode, details), and
maps any other caught value to status 500 with code `INTERNAL_ERROR`,
statusCode 500, and the value's `message` when it is an `Error`, else
`"Unknown error"`. -/
theorem C6_handleApiError_mapping :
    (∀ (e : ApiError) (j : String),
      handleApiError (.apiError e j)
        = (e.statusCode,
           { code := e.code, message := e.message, statusCode := e.statusCode,
             details := e.details }) ∧
      (handleApiError (.apiError e j)).2 = e.toJSON) ∧
    (∀ (m : String) (hc : Bool) (j : String),
      handleApiError (.jsError m hc j)
        = (500, { code := "INTERNAL_ERROR", message := m, statusCode := 500, details := none })) ∧
    (∀ (hc : Bool) (j : String),
      handleApiError (.object hc j)
        = (500, { code := "INTERNAL_ERROR", message := "Unknown error", statusCode := 500,
                  details := none })) ∧
    (handleApiError .primitive
      = (500, { code := "INTERNAL_ERROR", message := "Unknown error", statusCode := 500,
                details := none })) :=
  ⟨fun _ _ => ⟨rfl, rfl⟩, fun _ _ _ => rfl, fun _ _ => rfl, rfl⟩

/-- **C8** (confirmed): a request body without a `prompt` field gets a 400
response with a `PROMPT_REQUIRED` body, and the answer is identical for every
combined-service oracle, so the orchestrator (and hence neither remote API)
is consulted. -/
theorem C8_missing_prompt (body : CombinedRouteBody)
    (service service2 : CombinedRequest → Except JsThrownValue CombinedResponse)
    (h : body.prompt = none) :
    combinedRoutePOST service body
      = (400, .errorBody { code := "PROMPT_REQUIRED", message := "Prompt is required",
                           statusCode := 400 }) ∧
    combinedRoutePOST service body = combinedRoutePOST service2 body := by
  unfold combinedRoutePOST
  rw [h]
  exact ⟨rfl, rfl⟩

/-- Witness for C8 at the empty body and two different service oracles. -/
theorem C8_missing_prompt_witness :
    combinedRoutePOST stubCombinedServiceOk {}
      = (400, .errorBody { code := "PROMPT_REQUIRED", message := "Prompt is required",
                           statusCode := 400 }) ∧
    combinedRoutePOST stubCombinedServiceOk {} = combinedRoutePOST stubCombinedServiceThrow {} :=
  C8_missing_prompt {} stubCombinedServiceOk stubCombinedServiceThrow rfl

/-- **C9** counterexample: `"toString"` is not a key of the template
registry, yet the `PromptBuilder` constructor does not throw on it: the
object-literal lookup finds the inherited (truthy) `Object.prototype.toString`
member, so the falsiness guard does not fire. -/
theorem C9_counterexample :
    ¬ ("toString" ∈ promptTemplateKeys) ∧
    ownTemplate "toString" = none ∧
    getPromptTemplate "toString" = some .inherited ∧
    newPromptBuilder "toString" = some { template := .inherited } := by
  refine ⟨by decide, by decide, by decide, by decide⟩

/-- **C9** (amended): for every identifier that is neither a registry key nor
the name of an inherited `Object.prototype` member, the `PromptBuilder`
constructor throws; no builder exists, so no variable substitution can be
attempted. -/
theorem C9_unknown_id_throws (id : String)
    (hown : ownTemplate id = none) (hproto : id ∉ objectPrototypeMembers) :
    newPromptBuilder id = none := by
  unfold newPromptBuilder getPromptTemplate
  rw [hown]
  simp [hproto]

/-- Witness for C9 at a concrete unknown identifier. -/
theorem C9_unknown_id_throws_witness : newPromptBuilder "no-such-template" = none :=
  C9_unknown_id_throws "no-such-template" (by decide) (by decide)

/-- **C10** (confirmed): a 2xx Gemini reply whose extracted text field is the
empty string is treated exactly like an absent text field: the client throws
the `GEMINI_NO_RESPONSE` error with status 500, because `if (!text)` is a
falsiness check. -/
theorem C10_empty_text_no_response
    (request : TextGenerationRequest) (s : Nat) (data : GeminiData)
    (h1 : 200 ≤ s) (h2 : s ≤ 299) (hempty : data.candidatesText = some "") :
    GeminiClient.generateText request (.reply s data)
      = .error { code := "GEMINI_NO_RESPONSE", message := "No text generated in response",
                 statusCode := 500 } ∧
    GeminiClient.generateText request (.reply s data)
      = GeminiClient.generateText request (.reply s { data with candidatesText := none }) := by
  have hok : 200 ≤ s ∧ s ≤ 299 := ⟨h1, h2⟩
  simp [GeminiClient.generateText, GeminiClient.parseResponse, hempty, hok]

/-- Witness for C10 at status 200 and a concrete empty-text body. -/
theorem C10_empty_text_no_response_witness :
    GeminiClient.generateText sampleTextRequest (.reply 200 sampleEmptyTextData)
      = .error { code := "GEMINI_NO_RESPONSE", message := "No text generated in response",
                 statusCode := 500 } :=
  (C10_empty_text_no_response sampleTextRequest 200 sampleEmptyTextData
    (by decide) (by decide) rfl).1

/-- **C1** counterexample: when the audio stage throws an `Error` whose
`message` is the empty string, the combined call still succeeds with the text
present and no audio field, but the captured `audioError` is the empty
string — not a non-empty message as the claim states for every thrown
audio-stage error value. -/
theorem C1_counterexample :
    CombinedService.generateTextWithAudio stubTextServiceOk stubAudioServiceEmptyMessage
        sampleCombinedRequestAudio
      = .ok { text := sampleTextResponse, audio := none, audioError := some "",
              audioErrorDetails := none } := rfl

/-- **C1** (amended): for a combined request with a truthy `generateAudio`, a
successful text stage and a throwing audio stage, the call returns
successfully with the text response, no audio field, and an `audioError`
message that is present; the message is the thrown error's own `message` when
the error is an `Error` instance (and can then be empty), and the non-empty
fallback `"Audio generation failed"` otherwise, so it is empty only when the
thrown value is an `Error` with an empty `message`. `audioErrorDetails` is the
serialized error exactly when the value exposes a `code` property. -/
theorem C1_audio_stage_failure
    (textService : TextGenerationRequest → Except JsThrownValue TextGenerationResponse)
    (audioService : AudioGenerationRequest → Except JsThrownValue AudioGenerationResponse)
    (request : CombinedRequest) (t : TextGenerationResponse) (e : JsThrownValue)
    (hga : jsTruthyBool request.generateAudio = true)
    (ht : textService { prompt := request.prompt, model := request.model } = .ok t)
    (he : audioService (mkCombinedAudioRequest t request) = .error e) :
    CombinedService.generateTextWithAudio textService audioService request
      = .ok { text := t, audio := none, audioError := some (audioFailureMessage e),
              audioErrorDetails := if e.hasCodeProp then some e.stringify else none } ∧
    (e.instanceofError = true → audioFailureMessage e = e.errorMessage) ∧
    (e.instanceofError = false → audioFailureMessage e = "Audio generation failed") ∧
    (audioFailureMessage e = "" → e.instanceofError = true ∧ e.errorMessage = "") := by
  refine ⟨?_, ?_, ?_, ?_⟩
  · unfold CombinedService.generateTextWithAudio
    rw [ht, hga]
    simp only [if_true]
    rw [he]
    cases hcp : e.hasCodeProp <;> simp [hcp]
  · intro h
    simp [audioFailureMessage, h]
  · intro h
    simp [audioFailureMessage, h]
  · intro h
    cases e with
    | apiError a j => exact ⟨rfl, by simpa [audioFailureMessage, JsThrownValue.instanceofError,
        JsThrownValue.errorMessage] using h⟩
    | jsError m hc j => exact ⟨rfl, by simpa [audioFailureMessage, JsThrownValue.instanceofError,
        JsThrownValue.errorMessage] using h⟩
    | object hc j => simp [audioFailureMessage, JsThrownValue.instanceofError] at h
    | primitive => simp [audioFailureMessage, JsThrownValue.instanceofError] at h

/-- Witness for C1 at concrete oracles: a failing audio stage with a plain
`Error` carrying the message `"boom"`. -/
theorem C1_audio_stage_failure_witness :
    CombinedService.generateTextWithAudio stubTextServiceOk stubAudioServiceFail
        sampleCombinedRequestAudio
      = .ok { text := sampleTextResponse, audio := none,
              audioError := some (audioFailureMessage (.jsError "boom" false "")),
              audioErrorDetails :=
                if (JsThrownValue.jsError "boom" false "").hasCodeProp
                then some (JsThrownValue.jsError "boom" false "").stringify else none } :=
  (C1_audio_stage_failure stubTextServiceOk stubAudioServiceFail sampleCombinedRequestAudio
    sampleTextResponse (.jsError "boom" false "") rfl rfl rfl).1

/-- **C2** (confirmed): every `CombinedResponse` returned by
`generateTextWithAudio` carries exactly the text stage's successful response,
never holds both an audio result and an audio error, and when `generateAudio`
is false or absent it holds neither an audio field nor an audio-error field
(nor audio-error details). -/
theorem C2_combined_response_invariants
    (textService : TextGenerationRequest → Except JsThrownValue TextGenerationResponse)
    (audioService : AudioGenerationRequest → Except JsThrownValue AudioGenerationResponse)
    (request : CombinedRequest) (r : CombinedResponse)
    (h : CombinedService.generateTextWithAudio textService audioService request = .ok r) :
    textService { prompt := request.prompt, model := request.model } = .ok r.text ∧
    ¬ (r.audio.isSome = true ∧ r.audioError.isSome = true) ∧
    (jsTruthyBool request.generateAudio = false →
      r.audio = none ∧ r.audioError = none ∧ r.audioErrorDetails = none) := by
  unfold CombinedService.generateTextWithAudio at h
  cases htx : textService { prompt := request.prompt, model := request.model } with
  | error e =>
    rw [htx] at h
    exact absurd h (by simp)
  | ok t =>
    rw [htx] at h
    cases hga : jsTruthyBool request.generateAudio with
    | false =>
      rw [hga] at h
      simp only [Bool.false_eq_true, if_false, Except.ok.injEq] at h
      subst h
      exact ⟨rfl, by simp, fun _ => ⟨rfl, rfl, rfl⟩⟩
    | true =>
      rw [hga] at h
      simp only [if_true] at h
      cases hau : audioService (mkCombinedAudioRequest t request) with
      | ok a =>
        rw [hau] at h
        simp only [Except.ok.injEq] at h
        subst h
        exact ⟨rfl, by simp, fun hf => absurd hf (by simp)⟩
      | error e =>
        rw [hau] at h
        dsimp only [] at h
        cases hcp : e.hasCodeProp with
        | false =>
          rw [hcp] at h
          simp only [Bool.false_eq_true, if_false, Except.ok.injEq] at h
          subst h
          exact ⟨rfl, by simp, fun hf => absurd hf (by simp)⟩
        | true =>
          rw [hcp] at h
          simp only [if_true, Except.ok.injEq] at h
          subst h
          exact ⟨rfl, by simp, fun hf => absurd hf (by simp)⟩

/-- Witness for C2 at concrete oracles with `generateAudio` absent. -/
theorem C2_combined_response_invariants_witness :
    stubTextServiceOk { prompt := sampleCombinedRequestNoAudio.prompt,
                        model := sampleCombinedRequestNoAudio.model }
      = .ok (CombinedResponse.text { text := sampleTextResponse }) ∧
    ¬ ((CombinedResponse.audio { text := sampleTextResponse }).isSome = true ∧
       (CombinedResponse.audioError { text := sampleTextResponse }).isSome = true) ∧
    (jsTruthyBool sampleCombinedRequestNoAudio.generateAudio = false →
      CombinedResponse.audio { text := sampleTextResponse } = none ∧
      CombinedResponse.audioError { text := sampleTextResponse } = none ∧
      CombinedResponse.audioErrorDetails { text := sampleTextResponse } = none) :=
  C2_combined_response_invariants stubTextServiceOk stubAudioServiceOk
    sampleCombinedRequestNoAudio { text := sampleTextResponse } rfl

/-- **C5** (confirmed): the Gemini client maps HTTP 401/403 to
`GEMINI_AUTH_ERROR`, 429 to `GEMINI_RATE_LIMIT`, every other non-2xx status
to `GEMINI_API_ERROR` (each carrying the numeric status, and as details the
upstream `error` payload when present, else the whole body); an exception
that is not already an `ApiError` to `GEMINI_REQUEST_FAILED`; and a 2xx reply
without the expected text field to `GEMINI_NO_RESPONSE`, a code distinct from
the transport-failure code. -/
theorem C5_gemini_failure_mapping :
    (∀ (request : TextGenerationRequest) (s : Nat) (data : GeminiData),
      s = 401 ∨ s = 403 →
      GeminiClient.generateText request (.reply s data)
        = .error (GeminiClient.createError s data) ∧
      (GeminiClient.createError s data).code = "GEMINI_AUTH_ERROR" ∧
      (GeminiClient.createError s data).statusCode = s ∧
      (∀ p, data.errorField = some p →
        (GeminiClient.createError s data).details = some (.geminiErrorField p)) ∧
      (data.errorField = none →
        (GeminiClient.createError s data).details = some (.geminiBody data))) ∧
    (∀ (request : TextGenerationRequest) (data : GeminiData),
      GeminiClient.generateText request (.reply 429 data)
        = .error (GeminiClient.createError 429 data) ∧
      (GeminiClient.createError 429 data).code = "GEMINI_RATE_LIMIT" ∧
      (GeminiClient.createError 429 data).statusCode = 429) ∧
    (∀ (request : TextGenerationRequest) (s : Nat) (data : GeminiData),
      ¬ (200 ≤ s ∧ s ≤ 299) → s ≠ 401 → s ≠ 403 → s ≠ 429 →
      GeminiClient.generateText request (.reply s data)
        = .error (GeminiClient.createError s data) ∧
      (GeminiClient.createError s data).code = "GEMINI_API_ERROR" ∧
      (GeminiClient.createError s data).statusCode = s) ∧
    (∀ (request : TextGenerationRequest) (e : JsThrownValue),
      e.instanceofApiError = false →
      (e.instanceofError = true →
        GeminiClient.generateText request (.thrown e)
          = .error { code := "GEMINI_REQUEST_FAILED", message := e.errorMessage,
                     statusCode := 500 }) ∧
      (e.instanceofError = false →
        GeminiClient.generateText request (.thrown e)
          = .error { code := "GEMINI_REQUEST_FAILED", message := "Unknown error",
                     statusCode := 500 })) ∧
    (∀ (request : TextGenerationRequest) (s : Nat) (data : GeminiData),
      200 ≤ s → s ≤ 299 → data.candidatesText = none →
      GeminiClient.generateText request (.reply s data)
        = .error { code := "GEMINI_NO_RESPONSE", message := "No text generated in response",
                   statusCode := 500 } ∧
      "GEMINI_NO_RESPONSE" ≠ "GEMINI_REQUEST_FAILED") := by
  refine ⟨?_, ?_, ?_, ?_, ?_⟩
  · intro request s data h
    have hnot : ¬ (200 ≤ s ∧ s ≤ 299) := by rcases h with rfl | rfl <;> omega
    refine ⟨by simp [GeminiClient.generateText, hnot], ?_, by simp [GeminiClient.createError],
      ?_, ?_⟩
    · rcases h with rfl | rfl <;> simp [GeminiClient.createError]
    · intro p hp
      simp [GeminiClient.createError, hp]
    · intro hp
      simp [GeminiClient.createError, hp]
  · intro request data
    have hnot : ¬ (200 ≤ (429 : Nat) ∧ (429 : Nat) ≤ 299) := by omega
    exact ⟨by simp [GeminiClient.generateText, hnot], by simp [GeminiClient.createError],
      by simp [GeminiClient.createError]⟩
  · intro request s data hnot h1 h2 h3
    exact ⟨by simp [GeminiClient.generateText, hnot],
      by simp [GeminiClient.createError, h1, h2, h3],
      by simp [GeminiClient.createError]⟩
  · intro request e hapi
    cases e with
    | apiError a j => simp [JsThrownValue.instanceofApiError] at hapi
    | jsError m hc j =>
      exact ⟨fun _ => rfl, fun hcontra => by simp [JsThrownValue.instanceofError] at hcontra⟩
    | object hc j =>
      exact ⟨fun hcontra => by simp [JsThrownValue.instanceofError] at hcontra, fun _ => rfl⟩
    | primitive =>
      exact ⟨fun hcontra => by simp [JsThrownValue.instanceofError] at hcontra, fun _ => rfl⟩
  · intro request s data h1 h2 hempty
    have hok : 200 ≤ s ∧ s ≤ 299 := ⟨h1, h2⟩
    exact ⟨by simp [GeminiClient.generateText, GeminiClient.parseResponse, hempty, hok],
      by decide⟩

/-- Witness for C5: the 401 and 429 branches at a concrete request and body. -/
theorem C5_gemini_failure_mapping_witness :
    GeminiClient.generateText sampleTextRequest (.reply 401 sampleAuthErrData)
      = .error (GeminiClient.createError 401 sampleAuthErrData) ∧
    (GeminiClient.createError 401 sampleAuthErrData).code = "GEMINI_AUTH_ERROR" ∧
    GeminiClient.generateText sampleTextRequest (.reply 429 sampleAuthErrData)
      = .error (GeminiClient.createError 429 sampleAuthErrData) ∧
    (GeminiClient.createError 429 sampleAuthErrData).code = "GEMINI_RATE_LIMIT" :=
  ⟨(C5_gemini_failure_mapping.1 sampleTextRequest 401 sampleAuthErrData (Or.inl rfl)).1,
   (C5_gemini_failure_mapping.1 sampleTextRequest 401 sampleAuthErrData (Or.inl rfl)).2.1,
   (C5_gemini_failure_mapping.2.1 sampleTextRequest sampleAuthErrData).1,
   (C5_gemini_failure_mapping.2.1 sampleTextRequest sampleAuthErrData).2.1⟩

/-- **C7** (confirmed): for every chunked byte stream received from the audio
vendor, base64-decoding the `audioData` of the produced
`AudioGenerationResponse` (the page's `atob` + `charCodeAt` path) yields the
exact concatenated byte buffer, and the reported `size` equals the length of
that decoded buffer, not of the base64 text. -/
theorem C7_audio_base64_roundtrip (request : AudioGenerationRequest)
    (chunks : List (List Nat)) (h : ∀ b ∈ chunks.flatten, b < 256) :
    decodeAudioData (ElevenLabsClientWrapper.generateAudio request chunks).audioData
      = chunks.flatten ∧
    (ElevenLabsClientWrapper.generateAudio request chunks).size
      = (decodeAudioData (ElevenLabsClientWrapper.generateAudio request chunks).audioData).length := by
  have hrt := base64_roundtrip chunks.flatten h
  constructor
  · exact hrt
  · show chunks.flatten.length
      = (decodeAudioData (ElevenLabsClientWrapper.generateAudio request chunks).audioData).length
    rw [show decodeAudioData (ElevenLabsClientWrapper.generateAudio request chunks).audioData
      = chunks.flatten from hrt]

/-- Witness for C7 at a concrete two-chunk stream. -/
theorem C7_audio_base64_roundtrip_witness :
    decodeAudioData (ElevenLabsClientWrapper.generateAudio sampleAudioRequest sampleAudioChunks).audioData
      = sampleAudioChunks.flatten ∧
    (ElevenLabsClientWrapper.generateAudio sampleAudioRequest sampleAudioChunks).size
      = (decodeAudioData
          (ElevenLabsClientWrapper.generateAudio sampleAudioRequest sampleAudioChunks).audioData).length :=
  C7_audio_base64_roundtrip sampleAudioRequest sampleAudioChunks (by decide)

/-- The GREETING template is its prefix, the `{topic}` token, and its suffix. -/
theorem greeting_split :
    GREETING.template.data
      = greetingPrefix ++ (placeholderTok "topic".data ++ greetingSuffix) := by decide

/-- The EXPLAIN template decomposed around its two placeholder tokens. -/
theorem explain_split :
    EXPLAIN.template.data
      = explainPrefix ++ (placeholderTok "concept".data
          ++ (explainMid ++ (placeholderTok "audience".data ++ explainSuffix))) := by decide

/-- The fixed GREETING prefix has no opening brace. -/
theorem greetingPrefix_no_open : ∀ c ∈ greetingPrefix, c ≠ '{' := by decide

/-- The fixed GREETING suffix has no opening brace. -/
theorem greetingSuffix_no_open : ∀ c ∈ greetingSuffix, c ≠ '{' := by decide

/-- The fixed EXPLAIN prefix has no opening brace. -/
theorem explainPrefix_no_open : ∀ c ∈ explainPrefix, c ≠ '{' := by decide

/-- The fixed EXPLAIN middle has no opening brace. -/
theorem explainMid_no_open : ∀ c ∈ explainMid, c ≠ '{' := by decide

/-- The fixed EXPLAIN suffix has no opening brace. -/
theorem explainSuffix_no_open : ∀ c ∈ explainSuffix, c ≠ '{' := by decide

/-- **C3** counterexample: on the raw template `"{x} {x}"` (obtained through
`PromptBuilder.fromString`) with the variable `x` set to `"y"`, the code's
`build()` throws — the second occurrence survives the single `replace` call
and trips the residual-token check — whereas substituting every occurrence,
as the claim states, would produce `"y y"`, which has no remaining
placeholder token and would be returned. -/
theorem C3_counterexample :
    build (setVariable (PromptBuilder.fromString "{x} {x}") "x" "y") = none ∧
    specBuild (setVariable (PromptBuilder.fromString "{x} {x}") "x" "y") = some "y y".data ∧
    hasPlaceholder "y y".data = false := by
  exact ⟨by decide, by decide, by decide⟩

/-- **C3** (amended): `build()` substitutes only the FIRST occurrence of each
set variable's `{name}` token (JavaScript `String.prototype.replace` with a
string pattern); later occurrences survive the pass, so the residual check
fires and `build()` throws whenever a variable occurs more than once. Stated
for an arbitrary split template `a ++ {k} ++ b ++ {k} ++ c` whose part before
the first occurrence has no opening brace, and a dollar-free value. -/
theorem C3_build_first_occurrence (k v a b c : List Char)
    (hk : k ≠ []) (hw : ∀ ch ∈ k, isWordChar ch = true)
    (ha : ∀ ch ∈ a, ch ≠ '{') (hv : '$' ∉ v) :
    substituteVars [(String.mk k, String.mk v)]
        (a ++ (placeholderTok k ++ (b ++ (placeholderTok k ++ c))))
      = a ++ (v ++ (b ++ (placeholderTok k ++ c))) ∧
    build (setVariable
        (PromptBuilder.fromString
          (String.mk (a ++ (placeholderTok k ++ (b ++ (placeholderTok k ++ c))))))
        (String.mk k) (String.mk v)) = none := by
  have hsub : substituteVars [(String.mk k, String.mk v)]
      (a ++ (placeholderTok k ++ (b ++ (placeholderTok k ++ c))))
      = a ++ (v ++ (b ++ (placeholderTok k ++ c))) :=
    jsReplace_boundary k v a (b ++ (placeholderTok k ++ c)) ha hv
  have hph : hasPlaceholder (a ++ (v ++ (b ++ (placeholderTok k ++ c)))) = true := by
    apply hasPlaceholder_append_of_right
    apply hasPlaceholder_append_of_right
    apply hasPlaceholder_append_of_right
    exact hasPlaceholder_tok_append k c hk hw
  refine ⟨hsub, ?_⟩
  show (if hasPlaceholder (substituteVars [(String.mk k, String.mk v)]
      (a ++ (placeholderTok k ++ (b ++ (placeholderTok k ++ c)))))
    then none else some (substituteVars [(String.mk k, String.mk v)]
      (a ++ (placeholderTok k ++ (b ++ (placeholderTok k ++ c)))))) = none
  rw [hsub, hph]
  simp

/-- Witness for C3 at the concrete split `"pre {x} mid {x} post"` with
`x := "y"`. -/
theorem C3_build_first_occurrence_witness :
    substituteVars [(String.mk "x".data, String.mk "y".data)]
        ("pre ".data ++ (placeholderTok "x".data
          ++ (" mid ".data ++ (placeholderTok "x".data ++ " post".data))))
      = "pre ".data ++ ("y".data
          ++ (" mid ".data ++ (placeholderTok "x".data ++ " post".data))) ∧
    build (setVariable
        (PromptBuilder.fromString
          (String.mk ("pre ".data ++ (placeholderTok "x".data
            ++ (" mid ".data ++ (placeholderTok "x".data ++ " post".data))))))
        (String.mk "x".data) (String.mk "y".data)) = none :=
  C3_build_first_occurrence "x".data "y".data "pre ".data " mid ".data " post".data
    (by decide) (by decide) (by decide) (by decide)

/-- **C4** counterexample: with the recognized id `GREETING` and the value
`"{oops}"` assigned to `topic` — an assignment covering the template's only
placeholder — the substituted result again contains a `{name}`-shaped token,
so `build()` throws instead of returning a string, refuting the claim as
quantified over all string values. -/
theorem C4_counterexample :
    (newPromptBuilder "GREETING").map (fun b0 => build (setVariable b0 "topic" "{oops}"))
      = some none := by decide

/-- **C4** (amended): for every recognized template id and the covering
assignment of its placeholders, `build()` returns a string with no remaining
`{name}`-shaped token, provided the assigned values cannot re-introduce one:
values containing no opening brace and no dollar character (the dollar being
special in a JavaScript replacement string). -/
theorem C4_build_covering_assignment :
    (∀ v : List Char, (∀ ch ∈ v, ch ≠ '{') → '$' ∉ v →
      (newPromptBuilder "GREETING").map
          (fun b0 => build (setVariable b0 "topic" (String.mk v)))
        = some (some (greetingPrefix ++ (v ++ greetingSuffix))) ∧
      hasPlaceholder (greetingPrefix ++ (v ++ greetingSuffix)) = false) ∧
    (∀ v1 v2 : List Char, (∀ ch ∈ v1, ch ≠ '{') → '$' ∉ v1 →
        (∀ ch ∈ v2, ch ≠ '{') → '$' ∉ v2 →
      (newPromptBuilder "EXPLAIN").map
          (fun b0 => build (setVariable (setVariable b0 "concept" (String.mk v1))
            "audience" (String.mk v2)))
        = some (some (explainPrefix ++ (v1 ++ (explainMid ++ (v2 ++ explainSuffix))))) ∧
      hasPlaceholder (explainPrefix ++ (v1 ++ (explainMid ++ (v2 ++ explainSuffix)))) = false) ∧
    ((newPromptBuilder "HR_ADVICE").map build = some (some HR_ADVICE.template.data) ∧
      hasPlaceholder HR_ADVICE.template.data = false) := by
  refine ⟨?_, ?_, by decide⟩
  · intro v hv hd
    have hsub : substituteVars [("topic", String.mk v)] GREETING.template.data
        = greetingPrefix ++ (v ++ greetingSuffix) := by
      show jsReplace GREETING.template.data (placeholderTok "topic".data) v
        = greetingPrefix ++ (v ++ greetingSuffix)
      rw [greeting_split]
      exact jsReplace_boundary "topic".data v greetingPrefix greetingSuffix
        greetingPrefix_no_open hd
    have hph : hasPlaceholder (greetingPrefix ++ (v ++ greetingSuffix)) = false := by
      exact hasPlaceholder_eq_false_of_no_open _
        (no_open_append greetingPrefix_no_open (no_open_append hv greetingSuffix_no_open))
    refine ⟨?_, hph⟩
    rw [show newPromptBuilder "GREETING" = some { template := BuilderTemplate.tmpl GREETING }
      from by decide]
    show some (if hasPlaceholder (substituteVars [("topic", String.mk v)] GREETING.template.data)
      then none
      else some (substituteVars [("topic", String.mk v)] GREETING.template.data))
      = some (some (greetingPrefix ++ (v ++ greetingSuffix)))
    rw [hsub, hph]
    simp
  · intro v1 v2 hv1 hd1 hv2 hd2
    have hsub1 : jsReplace EXPLAIN.template.data (placeholderTok "concept".data) v1
        = explainPrefix ++ (v1 ++ (explainMid
            ++ (placeholderTok "audience".data ++ explainSuffix))) := by
      rw [explain_split]
      exact jsReplace_boundary "concept".data v1 explainPrefix
        (explainMid ++ (placeholderTok "audience".data ++ explainSuffix))
        explainPrefix_no_open hd1
    have hassoc : explainPrefix ++ (v1 ++ (explainMid
          ++ (placeholderTok "audience".data ++ explainSuffix)))
        = (explainPrefix ++ v1 ++ explainMid)
          ++ (placeholderTok "audience".data ++ explainSuffix) := by
      simp [List.append_assoc]
    have hsub2 : jsReplace (explainPrefix ++ (v1 ++ (explainMid
          ++ (placeholderTok "audience".data ++ explainSuffix))))
          (placeholderTok "audience".data) v2
        = (explainPrefix ++ v1 ++ explainMid) ++ (v2 ++ explainSuffix) := by
      rw [hassoc]
      exact jsReplace_boundary "audience".data v2 (explainPrefix ++ v1 ++ explainMid)
        explainSuffix
        (no_open_append (no_open_append explainPrefix_no_open hv1) explainMid_no_open) hd2
    have hassoc2 : (explainPrefix ++ v1 ++ explainMid) ++ (v2 ++ explainSuffix)
        = explainPrefix ++ (v1 ++ (explainMid ++ (v2 ++ explainSuffix))) := by
      simp [List.append_assoc]
    have hsubAll : substituteVars [("concept", String.mk v1), ("audience", String.mk v2)]
        EXPLAIN.template.data
        = explainPrefix ++ (v1 ++ (explainMid ++ (v2 ++ explainSuffix))) := by
      show jsReplace (jsReplace EXPLAIN.template.data (placeholderTok "concept".data) v1)
          (placeholderTok "audience".data) v2
        = explainPrefix ++ (v1 ++ (explainMid ++ (v2 ++ explainSuffix)))
      rw [hsub1, hsub2, hassoc2]
    have hph : hasPlaceholder (explainPrefix ++ (v1 ++ (explainMid
        ++ (v2 ++ explainSuffix)))) = false := by
      exact hasPlaceholder_eq_false_of_no_open _
        (no_open_append explainPrefix_no_open (no_open_append hv1
          (no_open_append explainMid_no_open (no_open_append hv2 explainSuffix_no_open))))
    refine ⟨?_, hph⟩
    rw [show newPromptBuilder "EXPLAIN" = some { template := BuilderTemplate.tmpl EXPLAIN }
      from by decide]
    show some (if hasPlaceholder (substituteVars
        [("concept", String.mk v1), ("audience", String.mk v2)] EXPLAIN.template.data)
      then none
      else some (substituteVars [("concept", String.mk v1), ("audience", String.mk v2)]
        EXPLAIN.template.data))
      = some (some (explainPrefix ++ (v1 ++ (explainMid ++ (v2 ++ explainSuffix)))))
    rw [hsubAll, hph]
    simp

/-- Witness for C4: the GREETING conjunct at the concrete value `"AI"`. -/
theorem C4_build_covering_assignment_witness :
    (newPromptBuilder "GREETING").map
        (fun b0 => build (setVariable b0 "topic" (String.mk "AI".data)))
      = some (some (greetingPrefix ++ ("AI".data ++ greetingSuffix))) ∧
    hasPlaceholder (greetingPrefix ++ ("AI".data ++ greetingSuffix)) = false :=
  C4_build_covering_assignment.1 "AI".data (by decide) (by decide)

end HrButton
